import Mathlib

/-!
Verification development for the multi-tenant bot session manager
(`backend/bot-manager.js`).  The JavaScript code is shallowly embedded:
JS `Map`s become association lists with unique keys, JS numbers that can be
`NaN` become `Option Int`, thrown exceptions become an explicit
`state | optional error` pair threaded through each handler, and every
external-platform call (send, forward, acknowledge) is recorded as an
`Outbound` action whose success or failure is decided by an oracle
parameter.  The `Security` collaborator (`security.js`) is not part of the
analysed sources; its two entry points are abstract parameters of the
environment, as the specification treats sanitization as an external
collaborator concern.
-/

set_option maxRecDepth 4000

/-! ## Association-list maps (JS `Map` semantics: unique keys) -/

/-- Lookup in an association list (JS `Map.get` / object key lookup). -/
def mapGet [DecidableEq κ] (m : List (κ × α)) (k : κ) : Option α :=
  match m with
  | [] => none
  | (k', v) :: rest => if k' = k then some v else mapGet rest k

/-- JS `Map.set`: replace the first binding of the key, or append a new one. -/
def mapSet [DecidableEq κ] (m : List (κ × α)) (k : κ) (v : α) : List (κ × α) :=
  match m with
  | [] => [(k, v)]
  | (k', v') :: rest => if k' = k then (k, v) :: rest else (k', v') :: mapSet rest k v

/-- JS `Map.delete`: remove the binding(s) of the key. -/
def mapDelete [DecidableEq κ] (m : List (κ × α)) (k : κ) : List (κ × α) :=
  m.filter (fun p => decide (p.1 ≠ k))

/-! ## JS number semantics for page indices (`Option Int`, `none` = `NaN`) -/

/-- A JS number used as a page index: `none` models `NaN`. -/
abbrev JsInt := Option Int

def jsAdd : JsInt → JsInt → JsInt
  | some a, some b => some (a + b)
  | _, _ => none

def jsSub : JsInt → JsInt → JsInt
  | some a, some b => some (a - b)
  | _, _ => none

def jsMul : JsInt → JsInt → JsInt
  | some a, some b => some (a * b)
  | _, _ => none

/-- JS `Math.min`; any `NaN` argument gives `NaN`. -/
def jsMin : JsInt → JsInt → JsInt
  | some a, some b => some (min a b)
  | _, _ => none

/-- JS `<` comparison; any comparison with `NaN` is false. -/
def jsLt : JsInt → JsInt → Bool
  | some a, some b => decide (a < b)
  | _, _ => false

/-- JS number-to-string for page labels and callback payloads. -/
def jsToString : JsInt → String
  | none => "NaN"
  | some n => toString n

/-- JS `Array.prototype.slice` index conversion: `NaN` becomes 0, negative
indices count from the end (clamped at 0), positive indices clamp at the
length. -/
def jsIdx (k : Nat) : JsInt → Nat
  | none => 0
  | some i => if i < 0 then ((k : Int) + i).toNat else min i.toNat k

/-- JS `Array.prototype.slice(s, e)`. -/
def jsSlice (l : List α) (s e : JsInt) : List α :=
  (l.take (jsIdx l.length e)).drop (jsIdx l.length s)

/-! ## String helpers used by the handlers -/

/-- Whether `pat` occurs as a contiguous run inside `l` (JS `String.includes`). -/
def listInfixOf (pat : List Char) : List Char → Bool
  | [] => pat.isEmpty
  | c :: xs => List.isPrefixOf pat (c :: xs) || listInfixOf pat xs

/-- JS `String.prototype.includes`. -/
def strContains (s pat : String) : Bool :=
  listInfixOf pat.toList s.toList

/-- JS `String.prototype.toLowerCase` (over the code points we model). -/
def strLower (s : String) : String :=
  ⟨s.data.map Char.toLower⟩

/-- JS `String.prototype.startsWith`. -/
def strStarts (s pat : String) : Bool :=
  List.isPrefixOf pat.data s.data

/-- Split a character list at every occurrence of `sep`. -/
def splitChar (sep : Char) : List Char → List (List Char)
  | [] => [[]]
  | c :: rest =>
    let r := splitChar sep rest
    if c = sep then [] :: r
    else
      match r with
      | [] => [[c]]
      | g :: gs => (c :: g) :: gs

/-- JS `String.prototype.split` with a one-character separator. -/
def strSplit (s : String) (sep : Char) : List String :=
  (splitChar sep s.data).map (fun l => ⟨l⟩)

/-- JS `Array.prototype.join` with a separator string. -/
def strJoin (sep : String) : List String → String
  | [] => ""
  | [x] => x
  | x :: xs => x ++ sep ++ strJoin sep xs

/-- Accumulate the value of a leading digit run (`none` if no digit seen). -/
def digitRunVal : List Char → Option Nat → Option Nat
  | [], acc => acc
  | c :: rest, acc =>
    if c.isDigit then digitRunVal rest (some ((acc.getD 0) * 10 + (c.toNat - 48)))
    else acc

/-- JS `parseInt(s)`: skip whitespace, optional sign, longest digit run;
`none` models `NaN`. -/
def parseIntJs (s : String) : Option Int :=
  match s.data.dropWhile Char.isWhitespace with
  | '-' :: rest => (digitRunVal rest none).map (fun n => -(n : Int))
  | '+' :: rest => (digitRunVal rest none).map (fun n => (n : Int))
  | cs => (digitRunVal cs none).map (fun n => (n : Int))

/-- Fuelled model of `localeCompare(b, undefined, numeric, base sensitivity)`:
maximal digit runs compare by numeric value, other characters compare
case-insensitively.  The fuel always exceeds the total remaining length, so
the `0` case is never reached on the inputs we pass. -/
def numericCmpF : Nat → List Char → List Char → Ordering
  | 0, _, _ => .eq
  | _ + 1, [], [] => .eq
  | _ + 1, [], _ :: _ => .lt
  | _ + 1, _ :: _, [] => .gt
  | fuel + 1, a :: as, b :: bs =>
    if a.isDigit && b.isDigit then
      let pa := digitRunVal (a :: as) none
      let pb := digitRunVal (b :: bs) none
      match compare (pa.getD 0) (pb.getD 0) with
      | .eq => numericCmpF fuel ((a :: as).dropWhile Char.isDigit) ((b :: bs).dropWhile Char.isDigit)
      | o => o
    else
      match compare a.toLower b.toLower with
      | .eq => numericCmpF fuel as bs
      | o => o

/-- The comparator passed to `Array.prototype.sort` in `sendFolderMenu`. -/
def localeNumLe (x y : String) : Bool :=
  numericCmpF (x.length + y.length + 1) x.toList y.toList ≠ .gt

/-- Stable insertion of one name into a sorted run. -/
def insertByLe (le : String → String → Bool) (x : String) :
    List String → List String
  | [] => [x]
  | y :: ys => if le x y then x :: y :: ys else y :: insertByLe le x ys

/-- Stable sort of folder names, as `Object.keys(...).sort(localeCompare)`
(the engine's sort is stable, so any stable sort gives the same output). -/
def sortNames (l : List String) : List String :=
  l.foldr (insertByLe localeNumLe) []

/-- Worker for `chunksOf`: `cur` is the reversed chunk being filled and `k`
the remaining capacity of that chunk. -/
def chunksGo (n : Nat) : List α → List α → Nat → List (List α)
  | cur, [], _ => [cur.reverse]
  | cur, x :: xs, 0 => cur.reverse :: chunksGo n [x] xs (n - 1)
  | cur, x :: xs, k + 1 => chunksGo n (x :: cur) xs k

/-- Split a list into consecutive chunks of `n` elements (button rows). -/
def chunksOf (n : Nat) : List α → List (List α)
  | [] => []
  | x :: xs => chunksGo n [x] xs (n - 1)

/-! ## Content tree and the navigation renderer (`sendFolderMenu`) -/

/-- The per-bot content tree: named subfolders, file message ids, and an
optional channel id override. -/
inductive ContentTree where
  | node : List (String × ContentTree) → List Nat → Option String → ContentTree

def ContentTree.subfolders : ContentTree → List (String × ContentTree)
  | .node s _ _ => s

def ContentTree.files : ContentTree → List Nat
  | .node _ f _ => f

def ContentTree.channelId : ContentTree → Option String
  | .node _ _ c => c

/-- Walk `currentPath` from the root, as the loop at the top of
`sendFolderMenu`; any missing segment aborts with `none`. -/
def walkTree (t : ContentTree) : List String → Option ContentTree
  | [] => some t
  | f :: rest =>
    match mapGet t.subfolders f with
    | none => none
    | some sub => walkTree sub rest

/-- One inline-keyboard button. -/
structure Button where
  text : String
  callbackData : String
deriving DecidableEq, Repr

/-- An outbound external-platform call made by the manager. -/
inductive Outbound where
  /-- A `bot.sendMessage(chatId, text)` call with no keyboard. -/
  | msg : Int → String → Outbound
  /-- A `bot.sendMessage(chatId, text, reply_markup)` call with an inline keyboard. -/
  | menu : Int → String → List (List Button) → Outbound
  /-- A `bot.forwardMessage(chatId, channel, messageId)` call. -/
  | forward : Int → Option String → Nat → Outbound
  /-- A `bot.answerCallbackQuery(queryId, optional text)` call. -/
  | ack : String → Option String → Outbound
deriving DecidableEq, Repr

/-- The sorted subfolder names of a node. -/
def folderNames (t : ContentTree) : List String :=
  sortNames (t.subfolders.map Prod.fst)

/-- The header line of a folder menu message. -/
def menuTitle (currentPath : List String) (page : JsInt) (totalPages : Nat) : String :=
  let pathDisplay :=
    if currentPath.length > 0 then strJoin " > " currentPath else "Main Menu"
  let pageInfo :=
    if totalPages > 1 then
      " (Page " ++ jsToString (jsAdd page (some 1)) ++ "/" ++ toString totalPages ++ ")"
    else ""
  "📂 " ++ pathDisplay ++ pageInfo

/-- Embedding of `sendFolderMenu(bot, chatId, metadata, currentPath, page)`:
the sequence of outbound calls it makes.  Its internal try/catch (around
individual file forwards and around the whole body) means it never raises to
the calling handler, so it is a total function into an action list. -/
def sendFolderMenu (metadata : ContentTree) (chatId : Int) (currentPath : List String)
    (page : JsInt) : List Outbound :=
  match walkTree metadata currentPath with
  | none => [.msg chatId "❌ Folder not found."]
  | some cur =>
    let subNames := folderNames cur
    let files := cur.files
    let fwd : List Outbound :=
      if files.length > 0 ∧ page = some 0 then
        .msg chatId ("📁 Sending " ++ toString files.length ++ " file(s) from this folder...")
          :: files.map (fun mid => .forward chatId (cur.channelId <|> metadata.channelId) mid)
      else []
    if subNames.isEmpty then
      let emptyNote : List Outbound :=
        if files.length = 0 then [.msg chatId "📭 This folder is empty."] else []
      let nav : List Outbound :=
        if currentPath.length > 0 then
          [.menu chatId "Navigation:" [[⟨"🏠 Main Menu", "main|"⟩]]]
        else []
      fwd ++ emptyNote ++ nav
    else
      let startIdx := jsMul page (some 30)
      let endIdx := jsMin (jsAdd startIdx (some 30)) (some (subNames.length : Int))
      let pageSubs := jsSlice subNames startIdx endIdx
      let rows := (chunksOf 10 pageSubs).map (fun row =>
        row.map (fun name =>
          (⟨"📁 " ++ name,
            "folder|" ++ strJoin "/" (currentPath ++ [name])⟩ : Button)))
      let totalPages : Nat := (subNames.length + 29) / 30
      let backBtns : List Button :=
        if jsLt (some 0) page then
          [⟨"⬅️ Back",
            "page|" ++ jsToString (jsSub page (some 1)) ++ "|"
              ++ strJoin "/" currentPath⟩]
        else []
      let nextBtns : List Button :=
        if jsLt page (some ((totalPages : Int) - 1)) then
          [⟨"➡️ Next",
            "page|" ++ jsToString (jsAdd page (some 1)) ++ "|"
              ++ strJoin "/" currentPath⟩]
        else []
      let mainBtns : List Button :=
        if currentPath.length > 0 then [⟨"🏠 Main", "main|"⟩] else []
      let navRow := backBtns ++ nextBtns ++ mainBtns
      let buttons := rows ++ (if navRow.isEmpty then [] else [navRow])
      fwd ++ [.menu chatId (menuTitle currentPath page totalPages) buttons]

/-! ## Session runtime state and event handling (`setupBotHandlers`) -/

/-- One entry of a runtime's shared error log (`botInfo.errors`): the entry
category is the `type` field, `"polling"` or `"health_check"`. -/
structure ErrEntry where
  timestamp : Nat
  message : String
  etype : String
deriving DecidableEq, Repr

/-- The runtime record stored per bot (`botInfo`), including the id of the
polling connection its `TelegramBot` instance opened. -/
structure BotInfo where
  botId : String
  token : String
  channelId : String
  metadata : ContentTree
  status : String
  ownerId : Option Int
  errors : List ErrEntry
  lastHealthCheck : Nat
  connId : Nat

/-- The values destructured from `botInfo` at the top of `setupBotHandlers`;
the handler closures read these captured copies, not the live record. -/
structure SetupCtx where
  botId : String
  channelId : String
  metadata : ContentTree
  status : String
  ownerId : Option Int

/-- The observable state threaded through one runtime's handlers: the mutable
`botInfo`, the outbound calls made, admin alerts, console log, owner rows
written to storage, and whether a self-stop was requested. -/
structure HandlerState where
  info : BotInfo
  outs : List Outbound
  alerts : List (String × String)
  console : List String
  storageOwners : List (String × Int)
  stopRequested : Bool

/-- An inbound start-command or free-text message. -/
structure MsgEvent where
  fromId : Int
  chatId : Int
  text : String
deriving DecidableEq, Repr

/-- An inbound button-press callback. -/
structure CallbackEvent where
  queryId : String
  fromId : Int
  chatId : Int
  data : String
deriving DecidableEq, Repr

/-- One interaction event delivered by a runtime's stream. -/
inductive BotEvent where
  | start : MsgEvent → BotEvent
  | message : MsgEvent → BotEvent
  | callback : CallbackEvent → BotEvent
deriving DecidableEq, Repr

/-- The handler environment: configuration values, the two abstract entry
points of the external `Security` collaborator (the spec excludes
sanitization from the core), and an oracle fixing the outcome of each
outbound platform call (`none` = success, `some e` = the call throws `e`). -/
structure Env where
  adminUserId : Int
  welcomeMessage : String
  invalidInputMessage : String
  sanMsg : MsgEvent → Bool
  sanCb : String → Option String
  oracle : Outbound → Option String

def alertTo (hs : HandlerState) (category text : String) : HandlerState :=
  { hs with alerts := hs.alerts ++ [(category, text)] }

def logC (hs : HandlerState) (line : String) : HandlerState :=
  { hs with console := hs.console ++ [line] }

/-- Perform one outbound call; on oracle failure the call throws and the
state keeps every mutation made so far (JS exceptions do not roll back). -/
def sendTo (env : Env) (hs : HandlerState) (o : Outbound) :
    HandlerState × Option String :=
  match env.oracle o with
  | none => ({ hs with outs := hs.outs ++ [o] }, none)
  | some e => (hs, some e)

/-- Record the sends of `sendFolderMenu`, which never raises to its caller
(it has its own internal try/catch). -/
def renderOut (hs : HandlerState) (os : List Outbound) : HandlerState :=
  { hs with outs := hs.outs ++ os }

/-- Body of the `/start` handler (inside its try block). -/
def startBody (env : Env) (ctx : SetupCtx) (hs : HandlerState) (m : MsgEvent) :
    HandlerState × Option String :=
  if env.sanMsg m = false then
    (alertTo hs "security"
      ("Malicious message blocked from user " ++ toString m.fromId
        ++ " in bot " ++ ctx.botId), none)
  else if ctx.status = "pending" ∧ m.fromId ≠ env.adminUserId then
    (hs, none)
  else
    let step1 : HandlerState × Option String :=
      if ctx.status = "pending" then
        sendTo env hs (.msg m.chatId
          "⚠️ ADMIN TEST MODE ⚠️\n\nThis bot is pending approval. You are testing as admin.")
      else (hs, none)
    match step1 with
    | (hs, some e) => (hs, some e)
    | (hs, none) =>
      if ctx.status = "disconnected" then
        sendTo env hs (.msg m.chatId
          "⛔ This bot is currently disconnected. Please contact the administrator.")
      else if ctx.status = "banned" then
        (hs, none)
      else
        match sendTo env hs (.msg m.chatId env.welcomeMessage) with
        | (hs, some e) => (hs, some e)
        | (hs, none) =>
          (renderOut hs (sendFolderMenu ctx.metadata m.chatId [] (some 0)), none)

/-- Body of the free-text `message` handler (inside its try block).  The
owner-registration guard reads `ctx.ownerId`, the copy captured at setup
time, exactly as the source closure does. -/
def messageBody (env : Env) (ctx : SetupCtx) (hs : HandlerState) (m : MsgEvent) :
    HandlerState × Option String :=
  if strStarts m.text "/" then (hs, none)
  else if env.sanMsg m = false then
    (alertTo hs "security"
      ("Malicious message blocked from user " ++ toString m.fromId
        ++ " in bot " ++ ctx.botId), none)
  else if ctx.ownerId = none ∧ strContains (strLower m.text) "register" then
    let hs := { hs with storageOwners := hs.storageOwners ++ [(ctx.botId, m.fromId)] }
    let hs := { hs with info := { hs.info with ownerId := some m.fromId } }
    match sendTo env hs (.msg m.chatId
        "✅ Registration successful! Your bot has been submitted for review.\n\nYou will be notified once approved.") with
    | (hs, some e) => (hs, some e)
    | (hs, none) =>
      (alertTo hs "registration"
        ("Bot " ++ ctx.botId ++ " owner registered\nUser ID: " ++ toString m.fromId
          ++ "\nBot needs approval"), none)
  else
    sendTo env hs (.msg m.chatId env.invalidInputMessage)

/-- Body of the `callback_query` handler (inside its try block). -/
def callbackBody (env : Env) (ctx : SetupCtx) (hs : HandlerState) (q : CallbackEvent) :
    HandlerState × Option String :=
  match env.sanCb q.data with
  | none =>
    (alertTo hs "security"
      ("Malicious callback blocked from user " ++ toString q.fromId
        ++ " in bot " ++ ctx.botId), none)
  | some d =>
    if ctx.status = "pending" ∧ q.fromId ≠ env.adminUserId then
      sendTo env hs (.ack q.queryId none)
    else if ctx.status = "disconnected" ∨ ctx.status = "banned" then
      sendTo env hs (.ack q.queryId none)
    else
      let parts := strSplit d '|'
      let action := parts.headD ""
      let pathParts := parts.tail
      let path := (strSplit (strJoin "|" pathParts) '/').filter (· ≠ "")
      if action = "folder" then
        let hs := renderOut hs (sendFolderMenu ctx.metadata q.chatId path (some 0))
        sendTo env hs (.ack q.queryId none)
      else if action = "main" then
        let hs := renderOut hs (sendFolderMenu ctx.metadata q.chatId [] (some 0))
        sendTo env hs (.ack q.queryId (some "Returned to main menu"))
      else if action = "page" then
        let pageNum := parseIntJs (pathParts.headD "")
        let currentPath :=
          (strSplit (strJoin "|" pathParts.tail) '/').filter (· ≠ "")
        let hs := renderOut hs (sendFolderMenu ctx.metadata q.chatId currentPath pageNum)
        sendTo env hs (.ack q.queryId none)
      else
        (hs, none)

/-- Dispatch an event to the matching handler body, before the catch. -/
def eventBody (env : Env) (ctx : SetupCtx) (hs : HandlerState) :
    BotEvent → HandlerState × Option String
  | .start m => startBody env ctx hs m
  | .message m => messageBody env ctx hs m
  | .callback q => callbackBody env ctx hs q

/-- The catch block of the callback handler: log, then best-effort
`answerCallbackQuery` with an error note, whose own failure is only logged. -/
def callbackCatch (env : Env) (botId queryId : String) (hs : HandlerState)
    (e : String) : HandlerState :=
  let hs := logC hs ("Error handling callback for bot " ++ botId ++ ": " ++ e)
  match sendTo env hs (.ack queryId (some "Error processing request")) with
  | (hs, none) => hs
  | (hs, some e2) => logC hs ("Failed to answer callback query: " ++ e2)

/-- One event at the handler boundary: the try/catch wrapper of each handler
in `setupBotHandlers`.  Total by construction — an exception from the body is
caught and logged, never surfaced to the stream driver. -/
def handleEvent (env : Env) (ctx : SetupCtx) (hs : HandlerState) (ev : BotEvent) :
    HandlerState :=
  match ev, eventBody env ctx hs ev with
  | _, (hs₁, none) => hs₁
  | .start _, (hs₁, some e) =>
    logC hs₁ ("Error handling /start for bot " ++ ctx.botId ++ ": " ++ e)
  | .message _, (hs₁, some e) =>
    logC hs₁ ("Error handling message for bot " ++ ctx.botId ++ ": " ++ e)
  | .callback q, (hs₁, some e) => callbackCatch env ctx.botId q.queryId hs₁ e

/-- The `polling_error` handler: log, append a `"polling"` entry to the
shared error log, and request a self-stop (plus alert) once the log length
exceeds 10. -/
def pollingErrorH (ctx : SetupCtx) (hs : HandlerState) (emsg : String) (now : Nat) :
    HandlerState :=
  let hs := logC hs ("Polling error for bot " ++ ctx.botId)
  let info := { hs.info with errors := hs.info.errors ++ [⟨now, emsg, "polling"⟩] }
  let hs := { hs with info := info }
  if info.errors.length > 10 then
    let hs := logC hs ("Bot " ++ ctx.botId ++ " has too many errors, stopping...")
    let hs := { hs with stopRequested := true }
    alertTo hs "error" ("Bot " ++ ctx.botId ++ " stopped due to repeated errors")
  else hs

/-- One supervisor health check on one runtime record: success clears the
whole error log and refreshes the timestamp; failure appends a
`"health_check"` entry and reports whether the restart threshold
(3 cumulative entries of any category) is reached. -/
def healthCheckStep (info : BotInfo) (ok : Bool) (emsg : String) (now : Nat) :
    BotInfo × Bool :=
  if ok then ({ info with errors := [], lastHealthCheck := now }, false)
  else
    let info := { info with errors := info.errors ++ [⟨now, emsg, "health_check"⟩] }
    (info, decide (3 ≤ info.errors.length))

/-! ## The stream driver over many concurrent runtimes -/

/-- All live runtimes: identity → (captured setup values, handler state). -/
structure SysState where
  runtimes : List (String × SetupCtx × HandlerState)

/-- Deliver one inbound event to the runtime of the target identity. -/
def processEvent (env : Env) (sys : SysState) (te : String × BotEvent) : SysState :=
  match mapGet sys.runtimes te.1 with
  | none => sys
  | some (ctx, hs) =>
    ⟨mapSet sys.runtimes te.1 (ctx, handleEvent env ctx hs te.2)⟩

/-- Deliver an arbitrary interleaving of events across runtimes. -/
def processEvents (env : Env) (sys : SysState) (evs : List (String × BotEvent)) :
    SysState :=
  evs.foldl (processEvent env) sys

/-- The subsequence of events addressed to one identity. -/
def eventsFor (b : String) (evs : List (String × BotEvent)) : List BotEvent :=
  (evs.filter (fun p => decide (p.1 = b))).map Prod.snd

/-! ## The manager facade and session registry (`BotManager`) -/

/-- The `BotManager` fields plus the bookkeeping the embedding needs:
which polling connections were ever opened (`new TelegramBot` with
`autoStart` polling) and on which connections `stopPolling` was ever
invoked, the admin-message sends, alerts and console log. -/
structure ManagerState where
  bots : List (String × BotInfo)
  botTokenMap : List (String × String)
  recoveryActive : Bool
  openedConns : List Nat
  stopCalls : List Nat
  adminSends : List (Int × String)
  alerts : List (String × String)
  console : List String

def emptyManager : ManagerState :=
  { bots := [], botTokenMap := [], recoveryActive := false, openedConns := []
    stopCalls := [], adminSends := [], alerts := [], console := [] }

/-- Embedding of `addBot(botId, token, channelId, metadata, status, ownerId)`.
`getMeOk` is the outcome of the liveness check `bot.getMe()`, and `connId`
identifies the polling connection the constructor opens before that check.
On a failed check the error is caught: an alert is sent, `null` (here
`none`) is returned, and — notably — no stop call is made on the connection
just opened. -/
def addBot (st : ManagerState) (botId token channelId : String)
    (metadata : ContentTree) (status : String) (ownerId : Option Int)
    (getMeOk : Bool) (connId : Nat) : ManagerState × Option String :=
  let st := { st with openedConns := st.openedConns ++ [connId] }
  if getMeOk then
    let info : BotInfo :=
      { botId, token, channelId, metadata, status, ownerId,
        errors := [], lastHealthCheck := 0, connId }
    ({ st with
        bots := mapSet st.bots botId info,
        botTokenMap := mapSet st.botTokenMap token botId,
        console := st.console ++ ["Bot " ++ botId ++ " initialized"] },
      some botId)
  else
    ({ st with
        console := st.console ++ ["Error adding bot " ++ botId],
        alerts := st.alerts ++ [("error", "Failed to initialize bot " ++ botId)] },
      none)

/-- Embedding of `stopBot(botId)`: best-effort `stopPolling` (a failure is
only logged), then both maps drop their entries.  Idempotent on unknown
identifiers. -/
def stopBot (st : ManagerState) (botId : String) (stopOk : Bool) : ManagerState :=
  match mapGet st.bots botId with
  | none => st
  | some info =>
    let st := { st with stopCalls := st.stopCalls ++ [info.connId] }
    let st :=
      if stopOk then st
      else { st with console := st.console ++ ["Error stopping bot " ++ botId] }
    { st with
        bots := mapDelete st.bots botId,
        botTokenMap := mapDelete st.botTokenMap info.token,
        console := st.console ++ ["Bot " ++ botId ++ " stopped"] }

/-- The loop body of `stopAllBots`: try `stopPolling` on every runtime,
logging (not propagating) individual failures. -/
def stopAllLoop (stopOk : String → Bool) (st : ManagerState) :
    List (String × BotInfo) → ManagerState
  | [] => st
  | p :: rest =>
    let acc := { st with stopCalls := st.stopCalls ++ [p.2.connId] }
    let acc := if stopOk p.1 then acc
      else { acc with console := acc.console ++ ["Error stopping bot " ++ p.1] }
    stopAllLoop stopOk acc rest

/-- Embedding of `stopAllBots()`: clear the recovery interval first, then
stop every runtime best-effort, then clear both maps wholesale. -/
def stopAllBots (st : ManagerState) (stopOk : String → Bool) : ManagerState :=
  let st := { st with recoveryActive := false }
  let st := stopAllLoop stopOk st st.bots
  { st with bots := [], botTokenMap := [] }

/-- Embedding of `getActiveBotCount()` (`this.bots.size`). -/
def getActiveBotCount (st : ManagerState) : Nat :=
  st.bots.length

/-- Embedding of `getBotInfo(botId)`, the registry `get`. -/
def getBotInfo (st : ManagerState) (botId : String) : Option BotInfo :=
  mapGet st.bots botId

/-- A bot row as persisted by the storage collaborator. -/
structure StoredBot where
  botToken : String
  channelId : String
  metadata : ContentTree
  status : String
  ownerId : Option Int

/-- One supervisor pass over one runtime inside `startRecoveryMonitor`:
health-check it, and on reaching the threshold stop it and re-add it from
its persisted record when that is still approved. -/
def superBotStep (storage : String → Option StoredBot) (healthOk : String → Bool)
    (getMeOk : String → Bool) (freshConn : String → Nat) (now : Nat)
    (st : ManagerState) (botId : String) : ManagerState :=
  match mapGet st.bots botId with
  | none => st
  | some info =>
    match healthCheckStep info (healthOk botId) "health check failed" now with
    | (info, false) => { st with bots := mapSet st.bots botId info }
    | (info, true) =>
      let st := { st with bots := mapSet st.bots botId info }
      let st := stopBot st botId true
      match storage botId with
      | none => st
      | some sb =>
        if sb.status = "approved" then
          (addBot st botId sb.botToken sb.channelId sb.metadata sb.status sb.ownerId
            (getMeOk botId) (freshConn botId)).1
        else st

/-- One tick of the recovery monitor: after `stopAllBots` has cleared the
interval (`recoveryActive = false`) a tick does nothing at all. -/
def supervisorTick (storage : String → Option StoredBot) (healthOk : String → Bool)
    (getMeOk : String → Bool) (freshConn : String → Nat) (now : Nat)
    (st : ManagerState) : ManagerState :=
  if st.recoveryActive then
    (st.bots.map Prod.fst).foldl
      (superBotStep storage healthOk getMeOk freshConn now) st
  else st

/-- The fixed header the source prepends to every admin message. -/
def adminHeader : String := "📨 Message from Administrator:\n\n"

/-- Embedding of `sendAdminMessage(botId, ownerId, message)`: `NotFound`
(the thrown `Bot not found`) when no runtime is live, otherwise the message
is passed through the Security collaborator's `sanitizeInput` and sent with
the administrator header prepended. -/
def sendAdminMessage (st : ManagerState) (sanitizeInput : String → String)
    (botId : String) (ownerId : Int) (message : String) :
    Except String ManagerState :=
  match mapGet st.bots botId with
  | none => .error "Bot not found"
  | some _ =>
    .ok { st with
      adminSends := st.adminSends ++ [(ownerId, adminHeader ++ sanitizeInput message)] }

/-! ## Registry operation sequences (for the dual-map invariant) -/

/-- One facade-level registry operation, with the oracle outcomes it needs. -/
inductive RegOp where
  | add : String → String → String → ContentTree → String → Option Int →
      Bool → Nat → RegOp
  | remove : String → Bool → RegOp
  | stopAll : (String → Bool) → RegOp

def applyOp (st : ManagerState) : RegOp → ManagerState
  | .add botId token channelId md status owner getMeOk connId =>
    (addBot st botId token channelId md status owner getMeOk connId).1
  | .remove botId stopOk => stopBot st botId stopOk
  | .stopAll stopOk => stopAllBots st stopOk

def applyOps (st : ManagerState) (ops : List RegOp) : ManagerState :=
  ops.foldl applyOp st

/-- The dual-map invariant: every key of the token map names a live entry of
the identity map (whose token is that key). -/
def tokenInv (st : ManagerState) : Prop :=
  ∀ tok botId, mapGet st.botTokenMap tok = some botId →
    ∃ info, mapGet st.bots botId = some info ∧ info.token = tok

/-- A run is add-fresh when no successful `add` targets an identifier that is
already live at that moment. -/
def freshRun (st : ManagerState) : List RegOp → Bool
  | [] => true
  | op :: rest =>
    (match op with
     | .add botId _ _ _ _ _ getMeOk _ => !getMeOk || (mapGet st.bots botId).isNone
     | _ => true) && freshRun (applyOp st op) rest

/-! ## Concrete fixtures for witnesses and counterexamples -/

def leafT : ContentTree := .node [] [] none

def treeAB : ContentTree := .node [("a", leafT), ("b", leafT)] [] none

def env0 : Env :=
  { adminUserId := 999, welcomeMessage := "welcome", invalidInputMessage := "invalid",
    sanMsg := fun _ => true, sanCb := fun s => some s, oracle := fun _ => none }

/-- Environment whose transport throws on every send to chat 5 (identity A's
chat), simulating a throwing handler on that identity. -/
def envThrowA : Env :=
  { env0 with oracle := fun o => match o with
      | .msg 5 _ => some "boom"
      | _ => none }

def info0 : BotInfo :=
  { botId := "b1", token := "t1", channelId := "c1", metadata := treeAB,
    status := "approved", ownerId := none, errors := [], lastHealthCheck := 0,
    connId := 0 }

def ctx0 : SetupCtx :=
  { botId := "b1", channelId := "c1", metadata := treeAB, status := "approved",
    ownerId := none }

def hs0 : HandlerState :=
  { info := info0, outs := [], alerts := [], console := [], storageOwners := [],
    stopRequested := false }

def infoB : BotInfo := { info0 with botId := "b2", token := "t2", connId := 1 }

def ctxB : SetupCtx := { ctx0 with botId := "b2" }

def hsB : HandlerState := { hs0 with info := infoB }

/-- Two live runtimes, A (`b1`, chat 5) and B (`b2`, chat 6). -/
def sysAB : SysState := ⟨[("b1", ctx0, hs0), ("b2", ctxB, hsB)]⟩

/-- An interleaving where A's events blow up (via `envThrowA`) between B's. -/
def evsAB : List (String × BotEvent) :=
  [ ("b1", .start ⟨1, 5, "/start"⟩),
    ("b2", .message ⟨2, 6, "hello"⟩),
    ("b1", .message ⟨1, 5, "ping"⟩),
    ("b2", .message ⟨2, 6, "register"⟩) ]

/-- Re-add the identifier `b1` under a new token, then remove it. -/
def dupAddOps : List RegOp :=
  [ .add "b1" "tA" "c" leafT "approved" none true 0,
    .add "b1" "tB" "c" leafT "approved" none true 1,
    .remove "b1" true ]

/-- A fresh-add run: two distinct identifiers, then one removal. -/
def freshOps : List RegOp :=
  [ .add "b1" "tA" "c" leafT "approved" none true 0,
    .add "b2" "tB" "c" leafT "approved" none true 1,
    .remove "b1" true ]

/-- A manager holding the single live bot `b1`. -/
def st7 : ManagerState :=
  (addBot emptyManager "b1" "t1" "c1" leafT "approved" none true 0).1

/-! ## Lemmas about the association-list maps -/

theorem mapGet_mapSet_self [DecidableEq κ] (m : List (κ × α)) (k : κ) (v : α) :
    mapGet (mapSet m k v) k = some v := by
  induction m with
  | nil => simp [mapGet, mapSet]
  | cons p rest ih =>
    obtain ⟨k', v'⟩ := p
    by_cases h : k' = k <;> simp [mapGet, mapSet, h, ih]

theorem mapGet_mapSet_ne [DecidableEq κ] (m : List (κ × α)) (k k' : κ) (v : α)
    (h : k' ≠ k) : mapGet (mapSet m k v) k' = mapGet m k' := by
  induction m with
  | nil => simp [mapGet, mapSet, Ne.symm h]
  | cons p rest ih =>
    obtain ⟨k₀, v₀⟩ := p
    by_cases h0 : k₀ = k
    · subst h0
      simp [mapGet, mapSet, Ne.symm h]
    · by_cases h1 : k₀ = k'
      · simp [mapGet, mapSet, h0, h1, h]
      · simp [mapGet, mapSet, h0, h1, ih]

theorem mapGet_mapDelete_self [DecidableEq κ] (m : List (κ × α)) (k : κ) :
    mapGet (mapDelete m k) k = none := by
  induction m with
  | nil => rfl
  | cons p rest ih =>
    obtain ⟨k₀, v₀⟩ := p
    by_cases h : k₀ = k
    · subst h
      simpa [mapDelete, List.filter_cons] using ih
    · simpa [mapDelete, List.filter_cons, h, mapGet] using ih

theorem mapGet_mapDelete_ne [DecidableEq κ] (m : List (κ × α)) (k k' : κ)
    (h : k' ≠ k) : mapGet (mapDelete m k) k' = mapGet m k' := by
  induction m with
  | nil => rfl
  | cons p rest ih =>
    obtain ⟨k₀, v₀⟩ := p
    by_cases h0 : k₀ = k
    · subst h0
      simpa [mapDelete, List.filter_cons, mapGet, Ne.symm h] using ih
    · by_cases h1 : k₀ = k'
      · simp [mapDelete, List.filter_cons, mapGet, h0, h1, h]
      · simpa [mapDelete, List.filter_cons, mapGet, h0, h1] using ih


/-! ## Claim C2: a failed liveness check registers nothing -/

/-- C2: when the lightweight identity check (`bot.getMe()`) fails, `addBot`
returns the failure value (`none`, the embedded `InvalidCredential`/`null`)
and registers nothing: the identity map and token map are unchanged,
`count()` is unchanged, and `get(identifier)` still returns none. -/
theorem c2_failed_add_registers_nothing (st : ManagerState)
    (botId token channelId : String) (md : ContentTree) (status : String)
    (owner : Option Int) (connId : Nat)
    (habs : mapGet st.bots botId = none) :
    (addBot st botId token channelId md status owner false connId).2 = none
    ∧ (addBot st botId token channelId md status owner false connId).1.bots = st.bots
    ∧ (addBot st botId token channelId md status owner false connId).1.botTokenMap
        = st.botTokenMap
    ∧ getActiveBotCount (addBot st botId token channelId md status owner false connId).1
        = getActiveBotCount st
    ∧ getBotInfo (addBot st botId token channelId md status owner false connId).1 botId
        = none := by
  simp [addBot, getActiveBotCount, getBotInfo, habs]

theorem c2_failed_add_registers_nothing_witness :
    (addBot emptyManager "b9" "t9" "c9" leafT "pending" none false 7).2 = none
    ∧ (addBot emptyManager "b9" "t9" "c9" leafT "pending" none false 7).1.bots
        = emptyManager.bots
    ∧ (addBot emptyManager "b9" "t9" "c9" leafT "pending" none false 7).1.botTokenMap
        = emptyManager.botTokenMap
    ∧ getActiveBotCount (addBot emptyManager "b9" "t9" "c9" leafT "pending" none false 7).1
        = getActiveBotCount emptyManager
    ∧ getBotInfo (addBot emptyManager "b9" "t9" "c9" leafT "pending" none false 7).1 "b9"
        = none :=
  c2_failed_add_registers_nothing emptyManager "b9" "t9" "c9" leafT "pending" none 7 rfl

/-! ## Claim C10: the failure path never closes the opened connection -/

/-- C10: `addBot` opens its polling connection (`autoStart: true`) before the
identity check; on the failure path the catch block returns without any
stop call on the created instance, so the connection stays open while the
identifier is absent from the registry. -/
theorem c10_failed_add_leaks_connection (st : ManagerState)
    (botId token channelId : String) (md : ContentTree) (status : String)
    (owner : Option Int) (connId : Nat)
    (hconn : connId ∉ st.stopCalls) (habs : mapGet st.bots botId = none) :
    connId ∈ (addBot st botId token channelId md status owner false connId).1.openedConns
    ∧ connId ∉ (addBot st botId token channelId md status owner false connId).1.stopCalls
    ∧ getBotInfo (addBot st botId token channelId md status owner false connId).1 botId
        = none := by
  simp [addBot, getBotInfo, habs, hconn]

theorem c10_failed_add_leaks_connection_witness :
    7 ∈ (addBot emptyManager "b9" "t9" "c9" leafT "pending" none false 7).1.openedConns
    ∧ 7 ∉ (addBot emptyManager "b9" "t9" "c9" leafT "pending" none false 7).1.stopCalls
    ∧ getBotInfo (addBot emptyManager "b9" "t9" "c9" leafT "pending" none false 7).1 "b9"
        = none :=
  c10_failed_add_leaks_connection emptyManager "b9" "t9" "c9" leafT "pending" none 7
    (by simp [emptyManager]) rfl

/-! ## Claim C7: admin messages are sanitized and prefixed -/

/-- C7 counterexample: with the identity sanitizer and a live bot `b1`, the
text `"hi"` is not delivered as passed in — the administrator header is
prepended (and the text passes through `sanitizeInput`), refuting "no
sanitization here, the text is delivered as passed in". -/
theorem c7_counterexample :
    (match sendAdminMessage st7 id "b1" 42 "hi" with
      | .ok s => s.adminSends
      | .error _ => []) = [(42, adminHeader ++ "hi")]
    ∧ adminHeader ++ "hi" ≠ "hi" :=
  ⟨rfl, by decide⟩

/-- C7 (amended): `sendAdminMessage` fails with `NotFound` (`Bot not found`)
when no live runtime exists; otherwise it sends the text passed through the
Security collaborator's `sanitizeInput` with the administrator header
prepended — not the text verbatim. -/
theorem c7_admin_message (st : ManagerState) (san : String → String)
    (botId : String) (uid : Int) (text : String) :
    (mapGet st.bots botId = none →
      sendAdminMessage st san botId uid text = .error "Bot not found")
    ∧ (∀ info, mapGet st.bots botId = some info →
      sendAdminMessage st san botId uid text
        = .ok { st with
            adminSends := st.adminSends ++ [(uid, adminHeader ++ san text)] }) := by
  constructor
  · intro h
    simp [sendAdminMessage, h]
  · intro info h
    simp [sendAdminMessage, h]

theorem c7_admin_message_witness :
    sendAdminMessage emptyManager id "b1" 42 "hi" = .error "Bot not found" :=
  (c7_admin_message emptyManager id "b1" 42 "hi").1 rfl

/-! ## Claim C9: one shared error log, thresholds count both categories -/

/-- C9: the poll-category and health-category entries live in one shared
list: a successful supervisor health check clears the entire list (so a
following poll error starts counting from zero again), the health-check
restart threshold fires exactly when the cumulative length (of entries of
any category) reaches 3, and the poll self-stop fires exactly when the
cumulative length exceeds 10. -/
theorem c9_shared_error_log (info : BotInfo) (ctx : SetupCtx) (hs : HandlerState)
    (emsg pe : String) (now now' : Nat) :
    (healthCheckStep info true emsg now).1.errors = []
    ∧ (healthCheckStep info false emsg now).2
        = decide (3 ≤ info.errors.length + 1)
    ∧ (pollingErrorH ctx hs pe now).stopRequested
        = (hs.stopRequested || decide (10 < hs.info.errors.length + 1))
    ∧ (pollingErrorH ctx
        { hs with info := (healthCheckStep hs.info true emsg now).1 } pe now').stopRequested
        = hs.stopRequested := by
  refine ⟨by simp [healthCheckStep], by simp [healthCheckStep], ?_, ?_⟩
  · by_cases h : 10 < hs.info.errors.length + 1 <;>
      simp [pollingErrorH, logC, alertTo, h]
  · simp [pollingErrorH, healthCheckStep, logC, alertTo]

/-! ## Claim C8: `stopAllBots` empties the registry and cancels the monitor -/

theorem stopAllLoop_fields (stopOk : String → Bool) (l : List (String × BotInfo)) :
    ∀ st : ManagerState,
      (stopAllLoop stopOk st l).bots = st.bots
      ∧ (stopAllLoop stopOk st l).botTokenMap = st.botTokenMap
      ∧ (stopAllLoop stopOk st l).recoveryActive = st.recoveryActive
      ∧ (stopAllLoop stopOk st l).stopCalls
          = st.stopCalls ++ l.map (fun p => p.2.connId) := by
  induction l with
  | nil => intro st; simp [stopAllLoop]
  | cons p rest ih =>
    intro st
    by_cases h : stopOk p.1
    · have := ih { st with stopCalls := st.stopCalls ++ [p.2.connId] }
      simpa [stopAllLoop, h] using this
    · have := ih { st with stopCalls := st.stopCalls ++ [p.2.connId],
                           console := st.console ++ ["Error stopping bot " ++ p.1] }
      simpa [stopAllLoop, h] using this

/-- C8: after `stopAllBots` the active count is 0 and both maps are empty,
the recovery interval is cleared first (a later supervisor tick is a no-op),
and a `stopPolling` call was attempted on every runtime — all of this for
every outcome oracle `stopOk`, in particular when individual close calls
fail (their exceptions are caught and logged inside the loop). -/
theorem c8_stop_all (st : ManagerState) (stopOk : String → Bool)
    (storage : String → Option StoredBot) (healthOk getMeOkF : String → Bool)
    (freshConn : String → Nat) (now : Nat) :
    getActiveBotCount (stopAllBots st stopOk) = 0
    ∧ (stopAllBots st stopOk).bots = []
    ∧ (stopAllBots st stopOk).botTokenMap = []
    ∧ (stopAllBots st stopOk).recoveryActive = false
    ∧ supervisorTick storage healthOk getMeOkF freshConn now (stopAllBots st stopOk)
        = stopAllBots st stopOk
    ∧ (stopAllBots st stopOk).stopCalls
        = st.stopCalls ++ st.bots.map (fun p => p.2.connId) := by
  have hloop := stopAllLoop_fields stopOk st.bots { st with recoveryActive := false }
  refine ⟨by simp [stopAllBots, getActiveBotCount], rfl, rfl, ?_, ?_, ?_⟩
  · simpa [stopAllBots] using hloop.2.2.1
  · have hact : (stopAllBots st stopOk).recoveryActive = false := by
      simpa [stopAllBots] using hloop.2.2.1
    simp [supervisorTick, hact]
  · simpa [stopAllBots] using hloop.2.2.2

/-! ## Claim C4: the owner-registration guard reads a stale captured value -/

/-- C4 (divergence witness): on a runtime whose owner was unset at setup, the
message handler's registration guard tests the `ownerId` captured when the
handlers were attached, not the live `botInfo.ownerId` it itself updates.
Hence a second "register" message from a different user re-enters the
registration branch and rebinds the owner: after users 111 then 222 both
send "register", the owner is 222 (not 111), and storage received two
registration writes.  This contradicts the claimed first-registrant-wins
no-op behaviour. -/
theorem c4_owner_rebound_bug :
    (handleEvent env0 ctx0
        (handleEvent env0 ctx0 hs0 (.message ⟨111, 5, "register"⟩))
        (.message ⟨222, 6, "register"⟩)).info.ownerId = some 222
    ∧ (handleEvent env0 ctx0
        (handleEvent env0 ctx0 hs0 (.message ⟨111, 5, "register"⟩))
        (.message ⟨222, 6, "register"⟩)).storageOwners
        = [("b1", 111), ("b1", 222)]
    ∧ (some 222 : Option Int) ≠ some 111 := by
  exact ⟨by decide, by decide, by decide⟩

/-! ## Claim C6: unknown callback actions get no acknowledgement at all -/

/-- C6 counterexample: a callback whose payload passes sanitization but whose
action tag is unknown (`"wat|x"`) on an approved bot produces no outbound
call whatsoever — in particular no `answerCallbackQuery` — and no alert: the
handler state is returned completely unchanged, refuting "the handler
acknowledges the callback". -/
theorem c6_counterexample :
    handleEvent env0 ctx0 hs0 (.callback ⟨"q1", 5, 7, "wat|x"⟩) = hs0
    ∧ hs0.outs = [] := ⟨rfl, rfl⟩

/-- C6 (amended): for a callback whose sanitized payload carries an unknown
action tag (not `folder`/`main`/`page`) on a bot that is not pending,
disconnected or banned, the handler performs no render and sends no response
at all — not even an acknowledgement — and raises no error: the handler
state is unchanged. -/
theorem c6_unknown_action_silent (env : Env) (ctx : SetupCtx) (hs : HandlerState)
    (q : CallbackEvent) (d : String)
    (hsan : env.sanCb q.data = some d)
    (hstatus : ctx.status = "approved")
    (hact : ((strSplit d '|').headD "" ≠ "folder")
      ∧ ((strSplit d '|').headD "" ≠ "main")
      ∧ ((strSplit d '|').headD "" ≠ "page")) :
    handleEvent env ctx hs (.callback q) = hs := by
  obtain ⟨h1, h2, h3⟩ := hact
  simp only [List.headD_eq_head?_getD] at h1 h2 h3
  simp [handleEvent, eventBody, callbackBody, hsan, hstatus, h1, h2, h3]

theorem c6_unknown_action_silent_witness :
    handleEvent env0 ctx0 hs0 (.callback ⟨"q2", 5, 7, "zap|y"⟩) = hs0 :=
  c6_unknown_action_silent env0 ctx0 hs0 ⟨"q2", 5, 7, "zap|y"⟩ "zap|y" rfl rfl
    ⟨by decide, by decide, by decide⟩

/-! ## Claim C3: the dual-map registry invariant -/

theorem tokenInv_addBot (st : ManagerState) (botId token channelId : String)
    (md : ContentTree) (status : String) (owner : Option Int) (getMeOk : Bool)
    (connId : Nat) (h : tokenInv st)
    (hfresh : getMeOk = true → mapGet st.bots botId = none) :
    tokenInv (addBot st botId token channelId md status owner getMeOk connId).1 := by
  cases getMeOk with
  | false =>
    intro tok bid hg
    simp only [addBot, Bool.false_eq_true, if_false] at hg ⊢
    exact h tok bid hg
  | true =>
    have hab : mapGet st.bots botId = none := hfresh rfl
    intro tok bid hg
    simp only [addBot, if_true] at hg ⊢
    by_cases htok : tok = token
    · subst htok
      rw [mapGet_mapSet_self] at hg
      injection hg with hbid
      subst hbid
      exact ⟨_, mapGet_mapSet_self _ _ _, rfl⟩
    · rw [mapGet_mapSet_ne _ _ _ _ htok] at hg
      obtain ⟨info0, hi, ht⟩ := h tok bid hg
      have hbid : bid ≠ botId := by
        rintro rfl
        rw [hab] at hi
        cases hi
      refine ⟨info0, ?_, ht⟩
      rw [mapGet_mapSet_ne _ _ _ _ hbid]
      exact hi

theorem tokenInv_stopBot (st : ManagerState) (botId : String) (stopOk : Bool)
    (h : tokenInv st) : tokenInv (stopBot st botId stopOk) := by
  cases hbot : mapGet st.bots botId with
  | none => simpa [stopBot, hbot] using h
  | some info =>
    have hbots : (stopBot st botId stopOk).bots = mapDelete st.bots botId := by
      cases stopOk <;> simp [stopBot, hbot]
    have htm : (stopBot st botId stopOk).botTokenMap
        = mapDelete st.botTokenMap info.token := by
      cases stopOk <;> simp [stopBot, hbot]
    intro tok bid hg
    rw [htm] at hg
    rw [hbots]
    by_cases htok : tok = info.token
    · subst htok
      rw [mapGet_mapDelete_self] at hg
      cases hg
    · rw [mapGet_mapDelete_ne _ _ _ htok] at hg
      obtain ⟨info0, hi, ht⟩ := h tok bid hg
      have hbid : bid ≠ botId := by
        rintro rfl
        rw [hbot] at hi
        injection hi with he
        subst he
        exact htok ht.symm
      refine ⟨info0, ?_, ht⟩
      rw [mapGet_mapDelete_ne _ _ _ hbid]
      exact hi

theorem tokenInv_stopAllBots (st : ManagerState) (stopOk : String → Bool) :
    tokenInv (stopAllBots st stopOk) := by
  intro tok bid hg
  simp [stopAllBots, mapGet] at hg

theorem tokenInv_applyOp (st : ManagerState) (op : RegOp) (h : tokenInv st)
    (hf : (match op with
           | .add botId _ _ _ _ _ getMeOk _ => !getMeOk || (mapGet st.bots botId).isNone
           | _ => true) = true) : tokenInv (applyOp st op) := by
  cases op with
  | add botId token channelId md status owner getMeOk connId =>
    refine tokenInv_addBot st botId token channelId md status owner getMeOk connId h ?_
    intro hok
    subst hok
    simpa [Option.isNone_iff_eq_none] using hf
  | remove botId stopOk => exact tokenInv_stopBot st botId stopOk h
  | stopAll stopOk => exact tokenInv_stopAllBots st stopOk

theorem tokenInv_run (ops : List RegOp) : ∀ st : ManagerState, tokenInv st →
    freshRun st ops = true → tokenInv (applyOps st ops) := by
  induction ops with
  | nil => intro st h _; exact h
  | cons op rest ih =>
    intro st h hf
    simp only [freshRun, Bool.and_eq_true] at hf
    exact ih (applyOp st op) (tokenInv_applyOp st op h hf.1) hf.2

/-- C3 counterexample: after the operation run `dupAddOps` — `add` of `b1`
with token `tA`, a second successful `add` of the same live identifier `b1`
with token `tB`, then `remove b1` — the token map still holds the key `tA`
mapped to `b1` while the identity map has no entry for `b1`: the claimed
invariant fails for this sequence. -/
theorem c3_counterexample :
    mapGet (applyOps emptyManager dupAddOps).botTokenMap "tA" = some "b1"
    ∧ (mapGet (applyOps emptyManager dupAddOps).bots "b1").isNone = true :=
  ⟨by decide, rfl⟩

/-- C3 (amended): after every sequence of registry operations in which no
successful `add` re-registers an identifier that is already live, every key
of the secret-token map names a live entry of the identity map (whose stored
token is that key); the two maps are updated together on each add and each
remove.  (Re-adding a live identifier under a new token strands the old
token key, as the counterexample shows.) -/
theorem c3_token_map_inv (st : ManagerState) (ops : List RegOp)
    (hinv : tokenInv st) (hfresh : freshRun st ops = true) :
    tokenInv (applyOps st ops) :=
  tokenInv_run ops st hinv hfresh

theorem c3_token_map_inv_witness :
    tokenInv (applyOps emptyManager freshOps) :=
  c3_token_map_inv emptyManager freshOps
    (fun tok bid hg => by simp [emptyManager, mapGet] at hg) rfl

/-! ## Claim C5: out-of-range pages are not clamped -/

theorem jsSlice_nil_of_start_ge (l : List α) (n : Int) (e : JsInt)
    (h : (l.length : Int) ≤ n) : jsSlice l (some n) e = [] := by
  have h0 : (0 : Int) ≤ n := le_trans (Int.ofNat_nonneg _) h
  have hk : l.length ≤ n.toNat := by omega
  have ha : jsIdx l.length (some n) = l.length := by
    simp [jsIdx, not_lt.mpr h0, min_eq_right hk]
  unfold jsSlice
  rw [ha]
  apply List.drop_eq_nil_of_le
  rw [List.length_take]
  omega

/-- C5 counterexample: on a root folder with two subfolders, rendering page 5
differs from rendering the nearest valid page 0 — instead of clamping, the
renderer sends a menu whose folder-button grid is empty, with only a Back
navigation button pointing at the (still invalid) page 4. -/
theorem c5_counterexample :
    sendFolderMenu treeAB 7 [] (some 5) ≠ sendFolderMenu treeAB 7 [] (some 0)
    ∧ sendFolderMenu treeAB 7 [] (some 5)
        = [Outbound.menu 7 "📂 Main Menu" [[⟨"⬅️ Back", "page|4|"⟩]]]
    ∧ sendFolderMenu treeAB 7 [] (some 0)
        = [Outbound.menu 7 "📂 Main Menu"
            [[⟨"📁 a", "folder|a"⟩, ⟨"📁 b", "folder|b"⟩]]] :=
  ⟨by decide, by decide, by decide⟩

/-- C5 (amended): a page number at or beyond the page count is not clamped:
the renderer still replies without erroring, but with the requested page's
empty subfolder slice — the menu message carries no folder buttons, only a
navigation row holding a Back button to the (equally out-of-range) previous
page plus a Main button when not at root, and no files are forwarded since
the page is nonzero. -/
theorem c5_out_of_range_page (metadata cur : ContentTree) (chatId : Int)
    (path : List String) (n : Int)
    (hwalk : walkTree metadata path = some cur)
    (hne : folderNames cur ≠ [])
    (hp : ((((folderNames cur).length + 29) / 30 : Nat) : Int) ≤ n) :
    sendFolderMenu metadata chatId path (some n)
      = [Outbound.menu chatId
          (menuTitle path (some n) (((folderNames cur).length + 29) / 30))
          [⟨"⬅️ Back", "page|" ++ toString (n - 1) ++ "|" ++ strJoin "/" path⟩
            :: (if path.length > 0 then [(⟨"🏠 Main", "main|"⟩ : Button)] else [])]] := by
  have hk1 : 1 ≤ (folderNames cur).length := List.length_pos.mpr hne
  have htp1 : 1 ≤ ((folderNames cur).length + 29) / 30 := by omega
  have hn1 : (1 : Int) ≤ n := le_trans (by exact_mod_cast htp1) hp
  have hkmul : ((folderNames cur).length : Int) ≤ n * 30 := by
    have h1 : (folderNames cur).length
        ≤ (((folderNames cur).length + 29) / 30) * 30 := by omega
    calc ((folderNames cur).length : Int)
        ≤ ((((folderNames cur).length + 29) / 30 : Nat) : Int) * 30 := by
          exact_mod_cast h1
      _ ≤ n * 30 := by
          apply mul_le_mul_of_nonneg_right hp
          norm_num
  have hslice : jsSlice (folderNames cur) (some (n * 30))
      (jsMin (jsAdd (some (n * 30)) (some 30)) (some ((folderNames cur).length : Int)))
      = [] := jsSlice_nil_of_start_ge _ _ _ hkmul
  have hnz : ¬((some n : JsInt) = some 0) := by
    simp
    omega
  have hlt1 : jsLt (some 0) (some n) = true := by
    simp [jsLt]
    omega
  have hlt2 : jsLt (some n) (some ((((folderNames cur).length : Int) + 29) / 30 - 1))
      = false := by
    simp [jsLt]
    omega
  have hie : (folderNames cur).isEmpty = false := by
    simp [List.isEmpty_iff]
    exact hne
  simp only [sendFolderMenu, hwalk]
  simp only [jsMul, jsSub]
  rw [hslice]
  simp [hie, hnz, hlt1, hlt2, chunksOf, jsToString, menuTitle]

theorem c5_out_of_range_page_witness :
    sendFolderMenu treeAB 7 [] (some 5)
      = [Outbound.menu 7 "📂 Main Menu" [[⟨"⬅️ Back", "page|4|"⟩]]] :=
  (c5_out_of_range_page treeAB treeAB 7 [] 5 rfl (by decide) (by decide)).trans
    (by decide)

/-! ## Claim C1: the handler boundary isolates and logs every exception -/

theorem handleEvent_console_of_error (env : Env) (ctx : SetupCtx)
    (hs : HandlerState) (ev : BotEvent) (hs₁ : HandlerState) (e : String)
    (h : eventBody env ctx hs ev = (hs₁, some e)) :
    ∃ rest, rest ≠ [] ∧ (handleEvent env ctx hs ev).console = hs₁.console ++ rest := by
  cases ev with
  | start m =>
    refine ⟨["Error handling /start for bot " ++ ctx.botId ++ ": " ++ e],
      by simp, ?_⟩
    simp [handleEvent, h, logC]
  | message m =>
    refine ⟨["Error handling message for bot " ++ ctx.botId ++ ": " ++ e],
      by simp, ?_⟩
    simp [handleEvent, h, logC]
  | callback q =>
    cases horacle : env.oracle (.ack q.queryId (some "Error processing request")) with
    | none =>
      refine ⟨["Error handling callback for bot " ++ ctx.botId ++ ": " ++ e],
        by simp, ?_⟩
      simp [handleEvent, h, callbackCatch, logC, sendTo, horacle]
    | some e2 =>
      refine ⟨["Error handling callback for bot " ++ ctx.botId ++ ": " ++ e,
               "Failed to answer callback query: " ++ e2], by simp, ?_⟩
      simp [handleEvent, h, callbackCatch, logC, sendTo, horacle]

theorem processEvents_isolation (env : Env) (evs : List (String × BotEvent)) :
    ∀ (sys : SysState) (b : String) (ctx : SetupCtx) (hs : HandlerState),
      mapGet sys.runtimes b = some (ctx, hs) →
      mapGet (processEvents env sys evs).runtimes b
        = some (ctx, (eventsFor b evs).foldl (handleEvent env ctx) hs) := by
  induction evs with
  | nil =>
    intro sys b ctx hs h
    simpa [processEvents, eventsFor] using h
  | cons te rest ih =>
    intro sys b ctx hs h
    obtain ⟨t, ev⟩ := te
    by_cases hb : t = b
    · subst hb
      have hproc : processEvent env sys (t, ev)
          = ⟨mapSet sys.runtimes t (ctx, handleEvent env ctx hs ev)⟩ := by
        simp [processEvent, h]
      have hget : mapGet (processEvent env sys (t, ev)).runtimes t
          = some (ctx, handleEvent env ctx hs ev) := by
        rw [hproc]
        exact mapGet_mapSet_self _ _ _
      have hrec := ih (processEvent env sys (t, ev)) t ctx
        (handleEvent env ctx hs ev) hget
      simpa [processEvents, eventsFor, List.filter_cons] using hrec
    · have hstep : mapGet (processEvent env sys (t, ev)).runtimes b
          = some (ctx, hs) := by
        cases hget2 : mapGet sys.runtimes t with
        | none => simpa [processEvent, hget2] using h
        | some p =>
          obtain ⟨ctx₂, hs₂⟩ := p
          have hproc : processEvent env sys (t, ev)
              = ⟨mapSet sys.runtimes t (ctx₂, handleEvent env ctx₂ hs₂ ev)⟩ := by
            simp [processEvent, hget2]
          rw [hproc]
          have := mapGet_mapSet_ne sys.runtimes t b
            (ctx₂, handleEvent env ctx₂ hs₂ ev) (fun he => hb he.symm)
          rw [this]
          exact h
      have hrec := ih (processEvent env sys (t, ev)) b ctx hs hstep
      simpa [processEvents, eventsFor, List.filter_cons, hb] using hrec

/-- C1: (i) whenever a handler body raises (`eventBody` returns an error),
the boundary wrapper `handleEvent` catches it and appends at least one log
line, returning a plain state instead of propagating; (ii) the stream driver
therefore processes every delivered event: for any interleaving of events
across any set of live runtimes — including interleavings in which other
identities' handlers throw — each runtime `b` ends in exactly the fold of
the total `handleEvent` over its own event subsequence, so a failure while
handling one identity's event never prevents later events of that identity
or any event of another identity from being processed. -/
theorem c1_event_isolation :
    (∀ (env : Env) (ctx : SetupCtx) (hs : HandlerState) (ev : BotEvent)
        (hs₁ : HandlerState) (e : String),
        eventBody env ctx hs ev = (hs₁, some e) →
        ∃ rest, rest ≠ []
          ∧ (handleEvent env ctx hs ev).console = hs₁.console ++ rest)
    ∧ (∀ (env : Env) (sys : SysState) (evs : List (String × BotEvent))
        (b : String) (ctx : SetupCtx) (hs : HandlerState),
        mapGet sys.runtimes b = some (ctx, hs) →
        mapGet (processEvents env sys evs).runtimes b
          = some (ctx, (eventsFor b evs).foldl (handleEvent env ctx) hs)) :=
  ⟨handleEvent_console_of_error,
   fun env sys evs => processEvents_isolation env evs sys⟩

theorem c1_event_isolation_witness :
    mapGet (processEvents envThrowA sysAB evsAB).runtimes "b2"
      = some (ctxB, (eventsFor "b2" evsAB).foldl (handleEvent envThrowA ctxB) hsB) :=
  c1_event_isolation.2 envThrowA sysAB evsAB "b2" ctxB hsB rfl
